import Mathlib

/-
Verification of the device health scoring and classification engine
(backend/rules/healthRules.js and backend/services/evaluateDevice.js).

The engine is pure JavaScript.  We embed it shallowly:

* JavaScript numbers that the spec restricts to finite values are
  modelled as rationals; `Math.pow(x, 1.8)` in the legacy battery curve
  is modelled as the real power function.
* Loosely typed ("boolean-ish") fields are modelled by `JsVal`, a small
  JavaScript value type, so that the engine's `=== true`, `!== false`,
  `??` and truthiness tests can be embedded exactly.
* `Math.round` is `fun x => Int.floor (x + 1/2)`, which agrees with the
  JavaScript semantics (round half toward positive infinity).
* `LONGEVITY_PENALTIES[h]` can produce either a number (for GOOD) or a
  nested object (for FAIR / POOR); `JsPenaltyVal` captures both, and a
  product that touches an object is NaN, modelled as `none : Option Rat`.
-/

namespace HardwareDiag

/-- A loosely typed JavaScript value, restricted to the shapes the scoring
engine's boolean-ish diagnostic fields can take. -/
inductive JsVal where
  | undef : JsVal
  | null : JsVal
  | bool (b : Bool) : JsVal
  | num (q : ℚ) : JsVal
  | str (s : String) : JsVal
deriving DecidableEq, Repr

/-- JavaScript truthiness of a `JsVal` (`undefined`, `null`, `false`, `0`
and the empty string are falsy). -/
def JsVal.truthy : JsVal → Bool
  | .undef => false
  | .null => false
  | .bool b => b
  | .num q => q != 0
  | .str s => s != ""

/-- Whether a value is `undefined` or `null` (the values replaced by the
JavaScript nullish coalescing operator). -/
def JsVal.isNullish : JsVal → Bool
  | .undef => true
  | .null => true
  | _ => false

/-- JavaScript `v ?? d` on loosely typed values. -/
def nullishOr (v d : JsVal) : JsVal := if v.isNullish then d else v

/-- The utility `clamp(value, min, max) = Math.max(min, Math.min(max, value))`
from healthRules.js. -/
def clampQ (value lo hi : ℚ) : ℚ := max lo (min hi value)

/-- JavaScript `Math.round` on an exact rational: floor of `q + 1/2`. -/
def jsRoundQ (q : ℚ) : ℚ := ((⌊q + 1/2⌋ : ℤ) : ℚ)

/-- Raw standardized diagnostic payload: every field is optional.  Numeric
fields are `Option Rat` (absent / a finite number, the range the claims
address); the SMART status is an optional string; the six boolean-ish
flags are arbitrary `JsVal`s so that normalization's coercions can be
stated exactly. -/
structure RawStd where
  storage_smart_status : Option String
  ram_test_errors : Option ℚ
  cpu_stress_stable : JsVal
  cpu_throttling : JsVal
  gpu_stress_stable : JsVal
  gpu_artifacts : JsVal
  performance_percentage : Option ℚ
  ssd_wear_percentage : Option ℚ
  battery_health_percent : Option ℚ
  physical_damage : JsVal
  port_integrity : JsVal
  idle_temperature_celsius : Option ℚ
  load_temperature_celsius : Option ℚ
deriving DecidableEq, Repr

/-- The raw payload with every field missing (the `normalizeInput({})`
case). -/
def rawEmpty : RawStd :=
  ⟨none, none, .undef, .undef, .undef, .undef, none, none, none, .undef, .undef, none, none⟩

/-- The normalized diagnostic record produced by `normalizeInput`.
`physical_damage` and `port_integrity` are genuine booleans (the source
coerces them with `=== true` / `!== false`); the four stress / throttling /
artifact fields are only defaulted with `??` and so remain loosely typed. -/
structure Diag where
  storage_smart_status : String
  ram_test_errors : ℚ
  cpu_stress_stable : JsVal
  cpu_throttling : JsVal
  gpu_stress_stable : JsVal
  gpu_artifacts : JsVal
  performance_percentage : ℚ
  ssd_wear_percentage : ℚ
  battery_health_percent : ℚ
  physical_damage : Bool
  port_integrity : Bool
  idle_temperature_celsius : ℚ
  load_temperature_celsius : ℚ
deriving DecidableEq, Repr

/-- `normalizeInput` from healthRules.js.  `x || "UNKNOWN"` on an optional
string replaces both a missing field and the (falsy) empty string. -/
def normalizeInput (input : RawStd) : Diag where
  storage_smart_status :=
    match input.storage_smart_status with
    | none => "UNKNOWN"
    | some s => if s = "" then "UNKNOWN" else s
  ram_test_errors := max 0 (input.ram_test_errors.getD 0)
  cpu_stress_stable := nullishOr input.cpu_stress_stable (.bool false)
  cpu_throttling := nullishOr input.cpu_throttling (.bool false)
  gpu_stress_stable := nullishOr input.gpu_stress_stable (.bool false)
  gpu_artifacts := nullishOr input.gpu_artifacts (.bool false)
  performance_percentage := clampQ (input.performance_percentage.getD 0) 0 100
  ssd_wear_percentage := clampQ (input.ssd_wear_percentage.getD 0) 0 100
  battery_health_percent := clampQ (input.battery_health_percent.getD 0) 0 100
  physical_damage := input.physical_damage == .bool true
  port_integrity := input.port_integrity != .bool false
  idle_temperature_celsius := max 0 (input.idle_temperature_celsius.getD 0)
  load_temperature_celsius := max 0 (input.load_temperature_celsius.getD 0)

/-- `scoreLookup(value, rules)`: return the score of the first rule whose
threshold the value meets or exceeds, else 0. -/
def scoreLookup (value : ℚ) (rules : List (ℚ × ℚ)) : ℚ :=
  match rules with
  | [] => 0
  | rule :: rest => if value ≥ rule.1 then rule.2 else scoreLookup value rest

/-- `PERFORMANCE_SCORING` lookup table (threshold, score). -/
def PERFORMANCE_SCORING : List (ℚ × ℚ) := [(95, 30), (90, 25), (85, 20), (80, 15), (0, 5)]

/-- `SSD_WEAR_SCORING` lookup table (threshold, score), in the source's
order: thresholds ascending. -/
def SSD_WEAR_SCORING : List (ℚ × ℚ) := [(20, 10), (40, 7), (60, 4), (100, 0)]

/-- `BATTERY_HEALTH_SCORING` lookup table (threshold, score). -/
def BATTERY_HEALTH_SCORING : List (ℚ × ℚ) := [(85, 10), (70, 7), (60, 4), (0, 0)]

/-- Result of `scoreFunctionalIntegrity`: the clamped category score and
the four sub-scores kept in `details`. -/
structure FunctionalResult where
  score : ℚ
  storageScore : ℚ
  ramScore : ℚ
  cpuScore : ℚ
  gpuScore : ℚ
deriving DecidableEq, Repr

/-- Category 1, `scoreFunctionalIntegrity` (cap 40).  CPU and GPU compare
the stability flag with `=== true` / `=== false` but use the raw
truthiness of `cpu_throttling` / `gpu_artifacts`. -/
def scoreFunctionalIntegrity (diag : Diag) : FunctionalResult :=
  let storageScore : ℚ :=
    if diag.storage_smart_status = "GOOD" then 10
    else if diag.storage_smart_status = "WARNING" then 6 else 0
  let ramScore : ℚ :=
    if diag.ram_test_errors = 0 then 10 else if diag.ram_test_errors = 1 then 5 else 0
  let cpuScore : ℚ :=
    if diag.cpu_stress_stable == .bool true then 10
    else if diag.cpu_stress_stable == .bool false && diag.cpu_throttling.truthy then 6 else 0
  let gpuScore : ℚ :=
    if diag.gpu_stress_stable == .bool true then 10
    else if diag.gpu_stress_stable == .bool false && diag.gpu_artifacts.truthy then 5 else 0
  ⟨clampQ (storageScore + ramScore + cpuScore + gpuScore) 0 40,
    storageScore, ramScore, cpuScore, gpuScore⟩

/-- Result of `scorePerformanceRetention`. -/
structure PerformanceResult where
  score : ℚ
  performancePercent : ℚ
  benchmarkStatus : String
deriving DecidableEq, Repr

/-- Category 2, `scorePerformanceRetention` (cap 30): the table lookup is
applied only when the percentage is strictly positive; a literal 0 means
no benchmark data and scores 0. -/
def scorePerformanceRetention (diag : Diag) : PerformanceResult :=
  let perfPercent := diag.performance_percentage
  let score := if perfPercent > 0 then scoreLookup perfPercent PERFORMANCE_SCORING else 0
  ⟨clampQ score 0 30, perfPercent, if perfPercent > 0 then "EVALUATED" else "NO_DATA"⟩

/-- Result of `scoreRemainingLife`: clamped category score plus the two
sub-scores kept in `details`. -/
structure RemainingLifeResult where
  score : ℚ
  ssdScore : ℚ
  batteryScore : ℚ
  wearPercent : ℚ
  healthPercent : ℚ
deriving DecidableEq, Repr

/-- Category 3, `scoreRemainingLife` (cap 20): SSD sub-score looks up
`100 - wear` in `SSD_WEAR_SCORING`, battery sub-score looks up the health
percent in `BATTERY_HEALTH_SCORING`. -/
def scoreRemainingLife (diag : Diag) : RemainingLifeResult :=
  let ssdScore := scoreLookup (100 - diag.ssd_wear_percentage) SSD_WEAR_SCORING
  let batteryScore := scoreLookup diag.battery_health_percent BATTERY_HEALTH_SCORING
  ⟨clampQ (ssdScore + batteryScore) 0 20, ssdScore, batteryScore,
    diag.ssd_wear_percentage, diag.battery_health_percent⟩

/-- Result of `scorePhysicalThermal`. -/
structure PhysicalResult where
  score : ℚ
  thermalStatus : String
  physicalDamage : Bool
  portIntegrity : Bool
  idleTemp : ℚ
  loadTemp : ℚ
deriving DecidableEq, Repr

/-- `THERMAL_LIMITS.normal` idle threshold. -/
def THERMAL_LIMITS_normal_idle : ℚ := 50
/-- `THERMAL_LIMITS.normal` load threshold. -/
def THERMAL_LIMITS_normal_load : ℚ := 85
/-- `THERMAL_LIMITS.critical` idle threshold. -/
def THERMAL_LIMITS_critical_idle : ℚ := 60
/-- `THERMAL_LIMITS.critical` load threshold. -/
def THERMAL_LIMITS_critical_load : ℚ := 95

/-- Category 4, `scorePhysicalThermal` (cap 10): starts at 10, deducts 4
for physical damage and 2 for broken ports; the critical thermal branch
is tested first and deducts 4, otherwise the concerning branch deducts 2;
the final score is clamped to [0, 10]. -/
def scorePhysicalThermal (diag : Diag) : PhysicalResult :=
  let afterDamage : ℚ := if diag.physical_damage = true then 10 - 4 else 10
  let afterPorts : ℚ := if diag.port_integrity = false then afterDamage - 2 else afterDamage
  let idleTemp := diag.idle_temperature_celsius
  let loadTemp := diag.load_temperature_celsius
  let thermal : ℚ × String :=
    if idleTemp > THERMAL_LIMITS_critical_idle ∨ loadTemp > THERMAL_LIMITS_critical_load then
      (afterPorts - 4, "CRITICAL")
    else if idleTemp > THERMAL_LIMITS_normal_idle ∨ loadTemp > THERMAL_LIMITS_normal_load then
      (afterPorts - 2, "CONCERNING")
    else (afterPorts, "NORMAL")
  ⟨clampQ thermal.1 0 10, thermal.2, diag.physical_damage, diag.port_integrity, idleTemp, loadTemp⟩

/-- One entry of `REUSABILITY_CLASSIFICATION`: minimum score, label and
user-facing text. -/
structure ClassificationRec where
  min : ℚ
  label : String
  description : String
deriving DecidableEq, Repr

/-- `REUSABILITY_CLASSIFICATION.HIGH_GRADE`. -/
def HIGH_GRADE : ClassificationRec :=
  ⟨85, "High-grade reusable", "Excellent condition, ready for immediate reuse"⟩
/-- `REUSABILITY_CLASSIFICATION.REUSABLE`. -/
def REUSABLE : ClassificationRec :=
  ⟨70, "Reusable", "Good condition, minor upgrades recommended"⟩
/-- `REUSABILITY_CLASSIFICATION.LIMITED`. -/
def LIMITED : ClassificationRec :=
  ⟨50, "Limited reuse", "Functional but with notable limitations"⟩
/-- `REUSABILITY_CLASSIFICATION.NOT_RECOMMENDED`. -/
def NOT_RECOMMENDED : ClassificationRec :=
  ⟨0, "Not recommended", "Significant issues present, reuse not advised"⟩

/-- `REUSABILITY_CLASSIFICATION` as a map from its key to its entry. -/
def REUSABILITY_CLASSIFICATION (key : String) : Option ClassificationRec :=
  if key = "HIGH_GRADE" then some HIGH_GRADE
  else if key = "REUSABLE" then some REUSABLE
  else if key = "LIMITED" then some LIMITED
  else if key = "NOT_RECOMMENDED" then some NOT_RECOMMENDED
  else none

/-- `Object.values(REUSABILITY_CLASSIFICATION).sort((a, b) => b.min - a.min)`:
the four entries in descending order of `min` (insertion order already is
descending, and the sort is stable). -/
def classificationsSorted : List ClassificationRec :=
  [HIGH_GRADE, REUSABLE, LIMITED, NOT_RECOMMENDED]

/-- The scan inside `classifyReusability`: first entry whose minimum the
score meets, with `NOT_RECOMMENDED` as the fall-through result. -/
def classifyScan (totalScore : ℚ) : List ClassificationRec → ClassificationRec
  | [] => NOT_RECOMMENDED
  | c :: rest => if totalScore ≥ c.min then c else classifyScan totalScore rest

/-- `classifyReusability(totalScore)` from healthRules.js. -/
def classifyReusability (totalScore : ℚ) : ClassificationRec :=
  classifyScan totalScore classificationsSorted

/-- The inline threshold chain that `evaluateDeviceStandardized` stores in
`classification.tier`. -/
def inlineTier (totalScore : ℚ) : String :=
  if totalScore ≥ 85 then "HIGH_GRADE"
  else if totalScore ≥ 70 then "REUSABLE"
  else if totalScore ≥ 50 then "LIMITED"
  else "NOT_RECOMMENDED"

/-- The ordering of tiers stated by the spec:
NOT_RECOMMENDED < LIMITED < REUSABLE < HIGH_GRADE. -/
def tierRank (tag : String) : ℕ :=
  if tag = "NOT_RECOMMENDED" then 0
  else if tag = "LIMITED" then 1
  else if tag = "REUSABLE" then 2
  else 3

/-- The part of the `evaluateDeviceStandardized` result that the claims
inspect: the total score and the classification object. -/
structure StdResult where
  totalScore : ℚ
  classificationLevel : String
  classificationDescription : String
  classificationMinScore : ℚ
  classificationTier : String
deriving DecidableEq, Repr

/-- `evaluateDeviceStandardized`: normalize, score the four categories,
sum, classify; `classification.level/description/minScore` come from the
record returned by `classifyReusability` while `classification.tier` is
the inline threshold chain. -/
def evaluateDeviceStandardized (input : RawStd) : StdResult :=
  let diag := normalizeInput input
  let functional := scoreFunctionalIntegrity diag
  let performance := scorePerformanceRetention diag
  let remaining := scoreRemainingLife diag
  let physical := scorePhysicalThermal diag
  let totalScore := functional.score + performance.score + remaining.score + physical.score
  let classification := classifyReusability totalScore
  ⟨totalScore, classification.label, classification.description, classification.min,
    inlineTier totalScore⟩

/-- Legacy component weights (`WEIGHTS`). -/
structure ComponentMap (α : Type) where
  cpu : α
  ram : α
  storage : α
  battery : α
deriving DecidableEq, Repr

/-- `WEIGHTS = ... cpu 0.30, ram 0.25, storage 0.25, battery 0.20`. -/
def WEIGHTS : ComponentMap ℚ := ⟨3/10, 1/4, 1/4, 1/5⟩

/-- `MAX_SCORES = ... cpu 30, ram 25, storage 25, battery 20`. -/
def MAX_SCORES : ComponentMap ℚ := ⟨30, 25, 25, 20⟩

/-- Legacy `scoreCPU`: linear scaling of the percentage, clamped. -/
def scoreCPU (percent : ℚ) : ℚ := clampQ (percent / 100 * MAX_SCORES.cpu) 0 MAX_SCORES.cpu

/-- Legacy `scoreRAM`: effective capacity capped at 32 GB, then linear. -/
def scoreRAM (ramGB : ℚ) : ℚ := clampQ (min ramGB 32 / 32 * MAX_SCORES.ram) 0 MAX_SCORES.ram

/-- Legacy `scoreStorage`: linear scaling of the percentage, clamped. -/
def scoreStorage (percent : ℚ) : ℚ :=
  clampQ (percent / 100 * MAX_SCORES.storage) 0 MAX_SCORES.storage

/-- Legacy `scoreBattery`: power curve `Math.pow(normalized, 1.8)` on the
clamped normalized percentage, times the battery maximum.  The fractional
power forces a real-valued model. -/
noncomputable def scoreBattery (percent : ℚ) : ℝ :=
  ((clampQ (percent / 100) 0 1 : ℚ) : ℝ) ^ (1.8 : ℝ) * (MAX_SCORES.battery : ℝ)

/-- The legacy weighted total before rounding:
`sum over components of score / maxScore * weight * 100`. -/
noncomputable def legacyTotalScoreReal (cpu ram storage battery : ℚ) : ℝ :=
  (scoreCPU cpu : ℝ) / (MAX_SCORES.cpu : ℝ) * (WEIGHTS.cpu : ℝ) * 100 +
  (scoreRAM ram : ℝ) / (MAX_SCORES.ram : ℝ) * (WEIGHTS.ram : ℝ) * 100 +
  (scoreStorage storage : ℝ) / (MAX_SCORES.storage : ℝ) * (WEIGHTS.storage : ℝ) * 100 +
  scoreBattery battery / (MAX_SCORES.battery : ℝ) * (WEIGHTS.battery : ℝ) * 100

/-- The legacy `totalScore` field: `Math.round` of the weighted sum. -/
noncomputable def legacyTotalScore (cpu ram storage battery : ℚ) : ℤ :=
  ⌊legacyTotalScoreReal cpu ram storage battery + 1/2⌋

/-- The per-component health labels handed to `estimateLongevityYears`
(in the source, `components.*.health`). -/
structure ComponentsHealth where
  battery : String
  cpu : String
  storage : String
  ram : String
deriving DecidableEq, Repr

/-- A value stored in (or read out of) `LONGEVITY_PENALTIES`: the GOOD key
holds the number 1, the FAIR and POOR keys hold nested objects of
per-component factors. -/
inductive JsPenaltyVal where
  | num (q : ℚ) : JsPenaltyVal
  | obj (battery cpu storage ram : ℚ) : JsPenaltyVal
deriving DecidableEq, Repr

/-- `LONGEVITY_PENALTIES` from healthRules.js: GOOD is the number 1, FAIR
and POOR are per-component objects. -/
def LONGEVITY_PENALTIES (health : String) : Option JsPenaltyVal :=
  if health = "GOOD" then some (.num 1)
  else if health = "FAIR" then some (.obj (85/100) (85/100) (8/10) (85/100))
  else if health = "POOR" then some (.obj (6/10) (7/10) (8/10) (85/100))
  else none

/-- JavaScript `LONGEVITY_PENALTIES[h] || fallback`: `undefined` and the
number 0 are falsy, every object and nonzero number is truthy. -/
def jsOrPenalty (v : Option JsPenaltyVal) (fallback : ℚ) : JsPenaltyVal :=
  match v with
  | none => .num fallback
  | some (.num q) => if q = 0 then .num fallback else .num q
  | some e => e

/-- One step of `reduce((a, b) => a * b, 1)` over the penalty values: a
number times a number is exact, but any multiplication that touches an
object produces NaN (`none`), and NaN is absorbing. -/
def jsMulPenalty (acc : Option ℚ) (p : JsPenaltyVal) : Option ℚ :=
  match acc, p with
  | some a, .num q => some (a * q)
  | _, _ => none

/-- `estimateLongevityYears(totalScore, components)` from healthRules.js
(the version shipping with the standardized engine): base years times the
product of `LONGEVITY_PENALTIES[health] || POOR-fallback` per component,
then `Math.max(0, ...)` and rounding to one decimal.  `none` is NaN. -/
def estimateLongevityYears (totalScore : ℚ) (components : ComponentsHealth) : Option ℚ :=
  let baseYears := clampQ totalScore 0 100 / 100 * 6
  let pBattery := jsOrPenalty (LONGEVITY_PENALTIES components.battery) (6/10)
  let pCpu := jsOrPenalty (LONGEVITY_PENALTIES components.cpu) (7/10)
  let pStorage := jsOrPenalty (LONGEVITY_PENALTIES components.storage) (8/10)
  let pRam := jsOrPenalty (LONGEVITY_PENALTIES components.ram) (85/100)
  let product := [pBattery, pCpu, pStorage, pRam].foldl jsMulPenalty (some 1)
  (product.map fun p => max 0 (baseYears * p)).map fun adjusted => jsRoundQ (adjusted * 10) / 10

/-- A JavaScript object as the dispatcher sees it: an own-property list.
A key paired with `JsVal.undef` is still an own property. -/
def Obj : Type := List (String × JsVal)

/-- `input.hasOwnProperty(key)`. -/
def hasOwnProperty (o : Obj) (key : String) : Bool :=
  o.any fun entry => entry.1 == key

/-- The `standardizedKeys` list of `isStandardizedInput` in
services/evaluateDevice.js. -/
def standardizedKeys : List String :=
  ["storage_smart_status", "ram_test_errors", "cpu_stress_stable",
   "gpu_stress_stable", "performance_percentage", "ssd_wear_percentage",
   "battery_health_percent", "physical_damage", "idle_temperature_celsius"]

/-- `isStandardizedInput(input)`: some standardized key is an own property. -/
def isStandardizedInput (o : Obj) : Bool :=
  standardizedKeys.any fun key => hasOwnProperty o key

/-- The pipeline selected by the dispatcher. -/
inductive Route where
  | standardized : Route
  | legacy : Route
deriving DecidableEq, Repr

/-- The dispatcher's pipeline choice for an input object. -/
def routeOf (o : Obj) : Route :=
  if isStandardizedInput o then .standardized else .legacy

/-- The overall envelope assembled by the dispatcher, projected to the
fields the spec names: evaluation model tag, `overall.health`,
`overall.total_score` and `overall.reusable`. -/
structure Envelope where
  evaluationModel : String
  health : String
  total_score : ℚ
  reusable : Bool
deriving DecidableEq, Repr

/-- The envelope returned by the dispatcher's catch block. -/
def errorEnvelope : Envelope := ⟨"ERROR", "UNKNOWN", 0, false⟩

/-- The envelope the dispatcher builds around a standardized result
(services/evaluateDevice.js, standardized branch). -/
def mkStandardizedEnvelope (result : StdResult) : Envelope :=
  ⟨"STANDARDIZED_HARDWARE_REUSABILITY",
    if result.totalScore ≥ 80 then "GOOD"
    else if result.totalScore ≥ 55 then "FAIR" else "POOR",
    result.totalScore,
    decide (result.totalScore ≥ 50)⟩

/-- The overall fields of a legacy report that the dispatcher copies into
its envelope. -/
structure LegacyOverall where
  health : String
  totalScore : ℚ
  reusable : Bool
deriving DecidableEq, Repr

/-- The envelope the dispatcher builds around a legacy report
(services/evaluateDevice.js, legacy branch). -/
def mkLegacyEnvelope (report : LegacyOverall) : Envelope :=
  ⟨"LEGACY_COMPONENT_HEALTH", report.health, report.totalScore, report.reusable⟩

/-- The dispatcher's try block, with each pipeline allowed to throw
(`Except.error` is a thrown exception). -/
def dispatchTry (isStd : Bool) (stdRun : Except String StdResult)
    (legacyRun : Except String LegacyOverall) : Except String Envelope :=
  if isStd then stdRun.map mkStandardizedEnvelope else legacyRun.map mkLegacyEnvelope

/-- The whole dispatcher body: run the selected pipeline, build its
envelope, and convert any thrown exception into `errorEnvelope`. -/
def evaluateDeviceDispatch (isStd : Bool) (stdRun : Except String StdResult)
    (legacyRun : Except String LegacyOverall) : Envelope :=
  match dispatchTry isStd stdRun legacyRun with
  | .ok env => env
  | .error _ => errorEnvelope

/-- A raw standardized payload whose only datum is an SSD wear of 50%. -/
def rawWear50 : RawStd :=
  ⟨none, none, .undef, .undef, .undef, .undef, none, some 50, none, .undef, .undef, none, none⟩

/-- A raw standardized payload whose only datum is a performance
percentage of 1. -/
def rawPerf1 : RawStd :=
  ⟨none, none, .undef, .undef, .undef, .undef, some 1, none, none, .undef, .undef, none, none⟩

/-- A raw payload with an unstable CPU whose throttling flag is the
truthy non-boolean string "yes". -/
def rawThrottlingYes : RawStd :=
  ⟨none, none, .bool false, .str "yes", .undef, .undef, none, none, none, .undef, .undef,
    none, none⟩

/-- The same payload with the throttling flag boolean `false`. -/
def rawThrottlingFalse : RawStd :=
  ⟨none, none, .bool false, .bool false, .undef, .undef, none, none, none, .undef, .undef,
    none, none⟩

/-- A raw payload registering critical temperatures (idle 65, load 98)
and no other findings. -/
def rawHotTemps : RawStd :=
  ⟨none, none, .undef, .undef, .undef, .undef, none, none, none, .undef, .undef,
    some 65, some 98⟩

/-- An input object owning one standardized key with value `undefined`. -/
def objStdUndef : Obj := [("ssd_wear_percentage", JsVal.undef)]

/-- An input object owning the same key with a numeric value. -/
def objStdVal : Obj := [("ssd_wear_percentage", JsVal.num 50)]

/-- A purely legacy-shaped input object. -/
def objLegacy : Obj := [("cpu", JsVal.num 65), ("ram", JsVal.num 8)]

/-- The clamp utility really lands in the requested interval. -/
theorem clampQ_bounds (value lo hi : ℚ) (h : lo ≤ hi) :
    lo ≤ clampQ value lo hi ∧ clampQ value lo hi ≤ hi :=
  ⟨le_max_left _ _, max_le h (min_le_left _ _)⟩

/-- `classifyReusability` in closed form: the descending scan is the
expected threshold chain over the four classification records. -/
theorem classifyReusability_eq (t : ℚ) :
    classifyReusability t =
      if t ≥ 85 then HIGH_GRADE
      else if t ≥ 70 then REUSABLE
      else if t ≥ 50 then LIMITED
      else NOT_RECOMMENDED := by
  show classifyScan t [HIGH_GRADE, REUSABLE, LIMITED, NOT_RECOMMENDED] = _
  simp only [classifyScan, HIGH_GRADE, REUSABLE, LIMITED, NOT_RECOMMENDED]
  split_ifs <;> rfl

/-- The classification table really is scanned in descending order of
minimum score (the JavaScript sort leaves the insertion order in place). -/
theorem classificationsSorted_descending :
    classificationsSorted.Sorted fun a b => b.min ≤ a.min := by
  simp [classificationsSorted, HIGH_GRADE, REUSABLE, LIMITED, NOT_RECOMMENDED]
  norm_num

/-- C1: the claim states the SSD sub-score is a descending lookup on
`100 - wear` (wear ≤ 20 → 10, ≤ 40 → 7, ≤ 60 → 4, else 0), so a wear of
50% should score 4.  The code scans `SSD_WEAR_SCORING` in ascending
threshold order, so the first rule (threshold 20) matches every wear up
to 80% and the 7 and 4 tiers are unreachable: a wear of 50% scores 10,
and the lookup can only ever return 10 or 0. -/
theorem c1_ssd_wear_scoring_degenerate :
    (scoreRemainingLife (normalizeInput rawWear50)).ssdScore = 10 ∧
    (scoreRemainingLife (normalizeInput rawWear50)).ssdScore ≠ 4 ∧
    ∀ wear : ℚ, scoreLookup (100 - wear) SSD_WEAR_SCORING = 10 ∨
      scoreLookup (100 - wear) SSD_WEAR_SCORING = 0 := by
  refine ⟨?_, ?_, fun wear => ?_⟩
  · norm_num [scoreRemainingLife, normalizeInput, rawWear50, scoreLookup, SSD_WEAR_SCORING,
      clampQ, nullishOr]
  · norm_num [scoreRemainingLife, normalizeInput, rawWear50, scoreLookup, SSD_WEAR_SCORING,
      clampQ, nullishOr]
  · simp only [scoreLookup, SSD_WEAR_SCORING]
    split_ifs <;> first | exact Or.inl rfl | exact Or.inr rfl | (exfalso; linarith)

/-- C2: the claim states the longevity estimate multiplies base years by
one numeric penalty factor per component and is always finite.  In the
code `LONGEVITY_PENALTIES[health]` yields the whole FAIR / POOR object,
not its per-component field, so as soon as any component is FAIR or POOR
the product (number times object) is NaN and the estimate is NaN;  only
an all-GOOD breakdown produces the claimed finite value (4.2 at score
70). -/
theorem c2_longevity_nan_on_fair :
    estimateLongevityYears 70 ⟨"FAIR", "GOOD", "GOOD", "GOOD"⟩ = none ∧
    estimateLongevityYears 70 ⟨"GOOD", "POOR", "GOOD", "GOOD"⟩ = none ∧
    estimateLongevityYears 70 ⟨"GOOD", "GOOD", "GOOD", "GOOD"⟩ = some (21/5) := by
  have hfloor : ⌊(85 : ℚ) / 2⌋ = 42 := by
    rw [Int.floor_eq_iff] <;> norm_num
  refine ⟨?_, ?_, ?_⟩ <;>
    simp [estimateLongevityYears, LONGEVITY_PENALTIES, jsOrPenalty, jsMulPenalty, clampQ,
      jsRoundQ] <;>
    norm_num [hfloor]

/-- C7: the performance-retention scorer keeps the no-data sentinel
distinct from a poor benchmark: a percentage of exactly 0 scores 0,
while any percentage strictly between 0 and 80 (in particular 1) scores
5 through the lookup floor, and the two results differ. -/
theorem c7_performance_zero_sentinel (d e : Diag)
    (hd : d.performance_percentage = 0)
    (he0 : 0 < e.performance_percentage) (he80 : e.performance_percentage < 80) :
    (scorePerformanceRetention d).score = 0 ∧
    (scorePerformanceRetention e).score = 5 ∧
    (scorePerformanceRetention d).score ≠ (scorePerformanceRetention e).score := by
  have h1 : (scorePerformanceRetention d).score = 0 := by
    simp [scorePerformanceRetention, hd, clampQ]
  have h2 : (scorePerformanceRetention e).score = 5 := by
    have hlook : scoreLookup e.performance_percentage PERFORMANCE_SCORING = 5 := by
      simp only [scoreLookup, PERFORMANCE_SCORING]
      split_ifs <;> first | rfl | (exfalso; linarith)
    simp only [scorePerformanceRetention, if_pos he0, hlook]
    norm_num [clampQ]
  exact ⟨h1, h2, by rw [h1, h2]; norm_num⟩

/-- C7 witness: the zero percentage (defaulted payload) scores 0 while a
percentage of 1 scores 5. -/
theorem c7_performance_zero_sentinel_witness :
    (scorePerformanceRetention (normalizeInput rawEmpty)).score = 0 ∧
    (scorePerformanceRetention (normalizeInput rawPerf1)).score = 5 ∧
    (scorePerformanceRetention (normalizeInput rawEmpty)).score ≠
      (scorePerformanceRetention (normalizeInput rawPerf1)).score :=
  c7_performance_zero_sentinel (normalizeInput rawEmpty) (normalizeInput rawPerf1)
    (by norm_num [normalizeInput, rawEmpty, clampQ])
    (by norm_num [normalizeInput, rawPerf1, clampQ])
    (by norm_num [normalizeInput, rawPerf1, clampQ])

/-- C8: whenever the idle temperature exceeds the critical idle limit or
the load temperature exceeds the critical load limit, the thermal status
is CRITICAL and the thermal deduction is exactly 4 on top of the damage
and port deductions — the concerning branch is short-circuited and no
additional 2 is subtracted. -/
theorem c8_thermal_critical_short_circuit (d : Diag)
    (h : d.idle_temperature_celsius > THERMAL_LIMITS_critical_idle ∨
      d.load_temperature_celsius > THERMAL_LIMITS_critical_load) :
    (scorePhysicalThermal d).thermalStatus = "CRITICAL" ∧
    (scorePhysicalThermal d).score =
      clampQ (10 - (if d.physical_damage then 4 else 0) -
        (if d.port_integrity then 0 else 2) - 4) 0 10 := by
  cases hpd : d.physical_damage <;> cases hpi : d.port_integrity <;>
    simp only [scorePhysicalThermal, hpd, hpi, if_pos h] <;>
    norm_num

/-- C8 witness: idle 65 / load 98 with no damage and intact ports keeps
8 points deducted to 6 (not 4), with thermal status CRITICAL. -/
theorem c8_thermal_critical_short_circuit_witness :
    (scorePhysicalThermal (normalizeInput rawHotTemps)).thermalStatus = "CRITICAL" ∧
    (scorePhysicalThermal (normalizeInput rawHotTemps)).score = 6 := by
  have h := c8_thermal_critical_short_circuit (normalizeInput rawHotTemps)
    (by norm_num [normalizeInput, rawHotTemps, THERMAL_LIMITS_critical_idle])
  refine ⟨h.1, ?_⟩
  rw [h.2]
  simp only [normalizeInput, rawHotTemps]
  simp
  norm_num [clampQ]

/-- Each standardized category score is clamped into its budget. -/
theorem functionalIntegrity_score_bounds (d : Diag) :
    0 ≤ (scoreFunctionalIntegrity d).score ∧ (scoreFunctionalIntegrity d).score ≤ 40 := by
  simpa [scoreFunctionalIntegrity] using
    clampQ_bounds _ 0 40 (by norm_num)

/-- The performance-retention score is clamped into its budget. -/
theorem performanceRetention_score_bounds (d : Diag) :
    0 ≤ (scorePerformanceRetention d).score ∧ (scorePerformanceRetention d).score ≤ 30 := by
  simpa [scorePerformanceRetention] using
    clampQ_bounds _ 0 30 (by norm_num)

/-- The remaining-life score is clamped into its budget. -/
theorem remainingLife_score_bounds (d : Diag) :
    0 ≤ (scoreRemainingLife d).score ∧ (scoreRemainingLife d).score ≤ 20 := by
  simpa [scoreRemainingLife] using
    clampQ_bounds _ 0 20 (by norm_num)

/-- The physical-thermal score is clamped into its budget. -/
theorem physicalThermal_score_bounds (d : Diag) :
    0 ≤ (scorePhysicalThermal d).score ∧ (scorePhysicalThermal d).score ≤ 10 := by
  simpa [scorePhysicalThermal] using
    clampQ_bounds _ 0 10 (by norm_num)

/-- The legacy weighted sum, before rounding, stays inside [0, 100]: each
component ratio is in [0, 1] (the battery curve maps its clamped argument
through a power with nonnegative exponent). -/
theorem legacyTotalScoreReal_bounds (cpu ram storage battery : ℚ) :
    0 ≤ legacyTotalScoreReal cpu ram storage battery ∧
    legacyTotalScoreReal cpu ram storage battery ≤ 100 := by
  have hc := clampQ_bounds (cpu / 100 * MAX_SCORES.cpu) 0 MAX_SCORES.cpu
    (by norm_num [MAX_SCORES])
  have hr := clampQ_bounds (min ram 32 / 32 * MAX_SCORES.ram) 0 MAX_SCORES.ram
    (by norm_num [MAX_SCORES])
  have hs := clampQ_bounds (storage / 100 * MAX_SCORES.storage) 0 MAX_SCORES.storage
    (by norm_num [MAX_SCORES])
  have hbq := clampQ_bounds (battery / 100) 0 1 (by norm_num)
  have hc0 : (0 : ℝ) ≤ (scoreCPU cpu : ℝ) := by exact_mod_cast hc.1
  have hc1 : (scoreCPU cpu : ℝ) ≤ 30 := by
    have := hc.2; rw [MAX_SCORES] at this; exact_mod_cast this
  have hr0 : (0 : ℝ) ≤ (scoreRAM ram : ℝ) := by exact_mod_cast hr.1
  have hr1 : (scoreRAM ram : ℝ) ≤ 25 := by
    have := hr.2; rw [MAX_SCORES] at this; exact_mod_cast this
  have hs0 : (0 : ℝ) ≤ (scoreStorage storage : ℝ) := by exact_mod_cast hs.1
  have hs1 : (scoreStorage storage : ℝ) ≤ 25 := by
    have := hs.2; rw [MAX_SCORES] at this; exact_mod_cast this
  have hx0 : (0 : ℝ) ≤ ((clampQ (battery / 100) 0 1 : ℚ) : ℝ) := by exact_mod_cast hbq.1
  have hx1 : ((clampQ (battery / 100) 0 1 : ℚ) : ℝ) ≤ 1 := by exact_mod_cast hbq.2
  have hp0 : (0 : ℝ) ≤ ((clampQ (battery / 100) 0 1 : ℚ) : ℝ) ^ (1.8 : ℝ) :=
    Real.rpow_nonneg hx0 _
  have hp1 : ((clampQ (battery / 100) 0 1 : ℚ) : ℝ) ^ (1.8 : ℝ) ≤ 1 :=
    Real.rpow_le_one hx0 hx1 (by norm_num)
  have hb0 : (0 : ℝ) ≤ scoreBattery battery := by
    unfold scoreBattery; rw [MAX_SCORES]; positivity
  have hb1 : scoreBattery battery ≤ 20 := by
    unfold scoreBattery; rw [MAX_SCORES]; push_cast; nlinarith
  unfold legacyTotalScoreReal
  rw [MAX_SCORES, WEIGHTS]
  push_cast
  constructor <;> nlinarith

/-- C3: both pipelines report a total score in [0, 100].  The standardized
total is the sum of the four clamped category scores; the legacy total is
the rounded weighted component-ratio sum. -/
theorem c3_total_score_in_range (input : RawStd) (cpu ram storage battery : ℚ) :
    (0 ≤ (evaluateDeviceStandardized input).totalScore ∧
      (evaluateDeviceStandardized input).totalScore ≤ 100) ∧
    ((0 : ℤ) ≤ legacyTotalScore cpu ram storage battery ∧
      legacyTotalScore cpu ram storage battery ≤ 100) := by
  constructor
  · have hf := functionalIntegrity_score_bounds (normalizeInput input)
    have hp := performanceRetention_score_bounds (normalizeInput input)
    have hr := remainingLife_score_bounds (normalizeInput input)
    have hph := physicalThermal_score_bounds (normalizeInput input)
    have htot : (evaluateDeviceStandardized input).totalScore =
        (scoreFunctionalIntegrity (normalizeInput input)).score +
        (scorePerformanceRetention (normalizeInput input)).score +
        (scoreRemainingLife (normalizeInput input)).score +
        (scorePhysicalThermal (normalizeInput input)).score := rfl
    rw [htot]
    constructor <;> linarith [hf.1, hf.2, hp.1, hp.2, hr.1, hr.2, hph.1, hph.2]
  · have hbounds := legacyTotalScoreReal_bounds cpu ram storage battery
    unfold legacyTotalScore
    constructor
    · exact Int.le_floor.mpr (by push_cast; linarith [hbounds.1])
    · have hlt : ⌊legacyTotalScoreReal cpu ram storage battery + 1 / 2⌋ < 101 :=
        Int.floor_lt.mpr (by push_cast; linarith [hbounds.2])
      omega

/-- C4: the dispatcher routes by key presence alone.  Owning any of the
fixed standardized keys (whatever the stored value, `undefined` included)
selects the standardized pipeline; owning none selects the legacy
pipeline; and two objects agreeing on which standardized keys they own
are routed identically, regardless of the values stored under those
keys. -/
theorem c4_routing_by_key_presence (o o₁ o₂ : Obj) :
    ((∃ k ∈ standardizedKeys, hasOwnProperty o k = true) → routeOf o = .standardized) ∧
    ((∀ k ∈ standardizedKeys, hasOwnProperty o k = false) → routeOf o = .legacy) ∧
    ((∀ k ∈ standardizedKeys, hasOwnProperty o₁ k = hasOwnProperty o₂ k) →
      routeOf o₁ = routeOf o₂) := by
  refine ⟨?_, ?_, ?_⟩
  · rintro ⟨k, hk, hprop⟩
    have hstd : isStandardizedInput o = true :=
      List.any_eq_true.mpr ⟨k, hk, hprop⟩
    simp [routeOf, hstd]
  · intro h
    have hstd : isStandardizedInput o = false := by
      apply List.any_eq_false.mpr
      intro k hk
      simp [h k hk]
    simp [routeOf, hstd]
  · intro h
    have hsame : isStandardizedInput o₁ = isStandardizedInput o₂ := by
      unfold isStandardizedInput
      cases hcase : standardizedKeys.any fun key => hasOwnProperty o₂ key with
      | true =>
        obtain ⟨k, hk, hprop⟩ := List.any_eq_true.mp hcase
        exact List.any_eq_true.mpr ⟨k, hk, by rw [h k hk]; exact hprop⟩
      | false =>
        apply List.any_eq_false.mpr
        intro k hk
        have := List.any_eq_false.mp hcase k hk
        simp only [h k hk]
        simpa using this
    simp [routeOf, hsame]

/-- C4 witness: an object owning `ssd_wear_percentage` with value
`undefined` is routed to the standardized pipeline, a legacy-shaped
object to the legacy pipeline, and replacing the `undefined` with a
number does not change the route. -/
theorem c4_routing_by_key_presence_witness :
    routeOf objStdUndef = Route.standardized ∧ routeOf objLegacy = Route.legacy ∧
    routeOf objStdUndef = routeOf objStdVal :=
  ⟨(c4_routing_by_key_presence objStdUndef objStdUndef objStdVal).1
      ⟨"ssd_wear_percentage", by decide, by decide⟩,
   (c4_routing_by_key_presence objLegacy objStdUndef objStdVal).2.1 (by decide),
   (c4_routing_by_key_presence objLegacy objStdUndef objStdVal).2.2 (by decide)⟩

/-- C5: whichever pipeline is selected and however it ends, the dispatcher
returns an envelope: a thrown exception anywhere in either pipeline
produces exactly the error envelope (model ERROR, score 0, health
UNKNOWN, not reusable), and every non-throwing run is wrapped in the
envelope tagged with the evaluation model that was used. -/
theorem c5_dispatcher_always_returns_envelope (isStd : Bool)
    (stdRun : Except String StdResult) (legacyRun : Except String LegacyOverall) :
    (∀ msg, dispatchTry isStd stdRun legacyRun = .error msg →
      evaluateDeviceDispatch isStd stdRun legacyRun = errorEnvelope) ∧
    (∀ result, isStd = true → stdRun = .ok result →
      evaluateDeviceDispatch isStd stdRun legacyRun = mkStandardizedEnvelope result) ∧
    (∀ report, isStd = false → legacyRun = .ok report →
      evaluateDeviceDispatch isStd stdRun legacyRun = mkLegacyEnvelope report) ∧
    errorEnvelope.evaluationModel = "ERROR" ∧ errorEnvelope.total_score = 0 ∧
    errorEnvelope.health = "UNKNOWN" ∧ errorEnvelope.reusable = false ∧
    (∀ result, (mkStandardizedEnvelope result).evaluationModel =
      "STANDARDIZED_HARDWARE_REUSABILITY") ∧
    (∀ report, (mkLegacyEnvelope report).evaluationModel = "LEGACY_COMPONENT_HEALTH") := by
  refine ⟨?_, ?_, ?_, rfl, rfl, rfl, rfl, fun _ => rfl, fun _ => rfl⟩
  · intro msg hmsg
    simp [evaluateDeviceDispatch, hmsg]
  · rintro result rfl rfl
    simp [evaluateDeviceDispatch, dispatchTry, Except.map]
  · rintro report rfl rfl
    simp [evaluateDeviceDispatch, dispatchTry, Except.map]

/-- C5 witness: a standardized run that throws is converted into the
error envelope. -/
theorem c5_dispatcher_always_returns_envelope_witness :
    evaluateDeviceDispatch true (Except.error "boom") (Except.ok ⟨"POOR", 0, false⟩) =
      errorEnvelope :=
  (c5_dispatcher_always_returns_envelope true (Except.error "boom")
    (Except.ok ⟨"POOR", 0, false⟩)).1 "boom" rfl

/-- C6: tier classification is monotone in the total score — both for the
inline tier tag (in the order NOT_RECOMMENDED < LIMITED < REUSABLE <
HIGH_GRADE) and for the minimum score of the record returned by the
descending scan. -/
theorem c6_tier_monotone (s₁ s₂ : ℚ) (h : s₁ ≤ s₂) :
    tierRank (inlineTier s₁) ≤ tierRank (inlineTier s₂) ∧
    (classifyReusability s₁).min ≤ (classifyReusability s₂).min := by
  constructor
  · unfold inlineTier
    split_ifs <;> (try decide) <;> (exfalso; linarith)
  · rw [classifyReusability_eq, classifyReusability_eq]
    split_ifs <;> (try norm_num [HIGH_GRADE, REUSABLE, LIMITED, NOT_RECOMMENDED]) <;>
      (exfalso; linarith)

/-- C6 witness: a score of 40 classifies no higher than a score of 90. -/
theorem c6_tier_monotone_witness :
    tierRank (inlineTier 40) ≤ tierRank (inlineTier 90) ∧
    (classifyReusability 40).min ≤ (classifyReusability 90).min :=
  c6_tier_monotone 40 90 (by norm_num)

/-- C9 counterexample: the claim says every boolean-valued field of the
normalized record is a Boolean and a truthy non-true raw value such as
the string "yes" behaves identically to false everywhere.  With an
unstable CPU, a throttling flag of "yes" survives normalization as the
string itself (not a Boolean) and earns the 6-point throttling credit
that a false flag does not, so the two scores differ. -/
theorem c9_counterexample :
    (normalizeInput rawThrottlingYes).cpu_throttling = JsVal.str "yes" ∧
    (scoreFunctionalIntegrity (normalizeInput rawThrottlingYes)).cpuScore = 6 ∧
    (scoreFunctionalIntegrity (normalizeInput rawThrottlingFalse)).cpuScore = 0 ∧
    scoreFunctionalIntegrity (normalizeInput rawThrottlingYes) ≠
      scoreFunctionalIntegrity (normalizeInput rawThrottlingFalse) := by
  have h6 : (scoreFunctionalIntegrity (normalizeInput rawThrottlingYes)).cpuScore = 6 := rfl
  have h0 : (scoreFunctionalIntegrity (normalizeInput rawThrottlingFalse)).cpuScore = 0 := rfl
  refine ⟨rfl, h6, h0, fun hcontra => ?_⟩
  rw [congrArg FunctionalResult.cpuScore hcontra] at h6
  rw [h6] at h0
  norm_num at h0

/-- The functional-integrity scorer reads `cpu_throttling` only through
its truthiness. -/
theorem scoreFunctionalIntegrity_throttling_congr (d : Diag) (w₁ w₂ : JsVal)
    (h : w₁.truthy = w₂.truthy) :
    scoreFunctionalIntegrity { d with cpu_throttling := w₁ } =
      scoreFunctionalIntegrity { d with cpu_throttling := w₂ } := by
  simp only [scoreFunctionalIntegrity]
  rw [h]

/-- The functional-integrity scorer reads `gpu_artifacts` only through
its truthiness. -/
theorem scoreFunctionalIntegrity_artifacts_congr (d : Diag) (w₁ w₂ : JsVal)
    (h : w₁.truthy = w₂.truthy) :
    scoreFunctionalIntegrity { d with gpu_artifacts := w₁ } =
      scoreFunctionalIntegrity { d with gpu_artifacts := w₂ } := by
  simp only [scoreFunctionalIntegrity]
  rw [h]

/-- C9 (amended): normalization coerces only `physical_damage` (via
`=== true`) and `port_integrity` (via `!== false`) to Booleans; the
stress / throttling / artifact flags pass through unchanged when they are
not nullish.  Scoring reads `cpu_throttling` and `gpu_artifacts` by
truthiness, so a truthy non-true value there behaves identically to
`true`, not to `false`. -/
theorem c9_amended_boolean_coercion (r : RawStd) (v : JsVal) (hv : v.truthy = true) :
    (normalizeInput r).physical_damage = (r.physical_damage == JsVal.bool true) ∧
    (normalizeInput r).port_integrity = (r.port_integrity != JsVal.bool false) ∧
    ((normalizeInput r).cpu_stress_stable = nullishOr r.cpu_stress_stable (JsVal.bool false)) ∧
    scoreFunctionalIntegrity (normalizeInput { r with cpu_throttling := v }) =
      scoreFunctionalIntegrity (normalizeInput { r with cpu_throttling := JsVal.bool true }) ∧
    scoreFunctionalIntegrity (normalizeInput { r with gpu_artifacts := v }) =
      scoreFunctionalIntegrity (normalizeInput { r with gpu_artifacts := JsVal.bool true }) := by
  have hnn : v.isNullish = false := by
    cases v <;> simp_all [JsVal.truthy, JsVal.isNullish]
  have hd₁ : ∀ w : JsVal, normalizeInput { r with cpu_throttling := w } =
      { normalizeInput r with cpu_throttling := nullishOr w (JsVal.bool false) } :=
    fun w => rfl
  have hd₂ : ∀ w : JsVal, normalizeInput { r with gpu_artifacts := w } =
      { normalizeInput r with gpu_artifacts := nullishOr w (JsVal.bool false) } :=
    fun w => rfl
  have hkeep : nullishOr v (JsVal.bool false) = v := by
    simp [nullishOr, hnn]
  have htrue : nullishOr (JsVal.bool true) (JsVal.bool false) = JsVal.bool true := rfl
  refine ⟨rfl, rfl, rfl, ?_, ?_⟩
  · rw [hd₁ v, hd₁ (JsVal.bool true), hkeep, htrue]
    exact scoreFunctionalIntegrity_throttling_congr _ v (JsVal.bool true) hv
  · rw [hd₂ v, hd₂ (JsVal.bool true), hkeep, htrue]
    exact scoreFunctionalIntegrity_artifacts_congr _ v (JsVal.bool true) hv

/-- C9 (amended) witness: instantiated at the empty payload and the
truthy string "yes". -/
theorem c9_amended_boolean_coercion_witness :
    scoreFunctionalIntegrity (normalizeInput { rawEmpty with cpu_throttling := JsVal.str "yes" }) =
      scoreFunctionalIntegrity (normalizeInput { rawEmpty with cpu_throttling := JsVal.bool true }) :=
  (c9_amended_boolean_coercion rawEmpty (JsVal.str "yes") (by decide)).2.2.2.1

/-- C10: the two classification views always agree: the record produced
by the descending scan is exactly the `REUSABILITY_CLASSIFICATION` entry
named by the inline threshold chain, both in general and inside the
standardized result (whose `minScore` is 85, 70, 50 or 0 exactly when the
tier tag is HIGH_GRADE, REUSABLE, LIMITED or NOT_RECOMMENDED and whose
level and description come from that same record). -/
theorem c10_classification_views_agree (t : ℚ) (input : RawStd) :
    REUSABILITY_CLASSIFICATION (inlineTier t) = some (classifyReusability t) ∧
    REUSABILITY_CLASSIFICATION (evaluateDeviceStandardized input).classificationTier =
      some ⟨(evaluateDeviceStandardized input).classificationMinScore,
        (evaluateDeviceStandardized input).classificationLevel,
        (evaluateDeviceStandardized input).classificationDescription⟩ ∧
    ((classifyReusability t).min = 85 ↔ inlineTier t = "HIGH_GRADE") ∧
    ((classifyReusability t).min = 70 ↔ inlineTier t = "REUSABLE") ∧
    ((classifyReusability t).min = 50 ↔ inlineTier t = "LIMITED") ∧
    ((classifyReusability t).min = 0 ↔ inlineTier t = "NOT_RECOMMENDED") := by
  have hgen : ∀ s : ℚ, REUSABILITY_CLASSIFICATION (inlineTier s) =
      some (classifyReusability s) := by
    intro s
    rw [classifyReusability_eq]
    unfold inlineTier REUSABILITY_CLASSIFICATION
    split_ifs <;> simp_all
  refine ⟨hgen t, hgen _, ?_, ?_, ?_, ?_⟩ <;>
    · rw [classifyReusability_eq]
      unfold inlineTier
      split_ifs <;>
        (try norm_num [HIGH_GRADE, REUSABLE, LIMITED, NOT_RECOMMENDED]) <;>
        simp_all

end HardwareDiag
